import Mathlib

/-!
Verification of the loan-approval pipeline in `src/app.py`
(repository Loan_Approval_Data_Engineering_Project).

The pipeline core is embedded shallowly:
* `InputData` models the raw applicant record assembled in `main`;
* `extract_components` models the capability classification of a loaded
  pickle bundle (lines 106-146 of app.py);
* `preprocess_input` models the feature encoding (lines 148-186);
* `demoDecision` and `runMain` model the decision flow of `main`
  (lines 204-217 and 354-381);
* `risk_score` / `risk_level` model the risk assessment (lines 300-314).

Machine floats of the source are embedded as exact rationals; the slider
inputs of the app are integers, so all arithmetic below is exact except
for the float division of Python, which rationals refine at every
non-tie comparison.
-/

namespace LoanApp

/-- Raw applicant record, as assembled in `main` (app.py lines 337-349):
categorical fields are raw strings, numeric fields rationals.
`Credit_History` is the integer 0 or 1 from the selectbox. -/
structure InputData where
  Gender : String
  Married : String
  Dependents : String
  Education : String
  Self_Employed : String
  Property_Area : String
  ApplicantIncome : ℚ
  CoapplicantIncome : ℚ
  LoanAmount : ℚ
  Loan_Amount_Term : ℚ
  Credit_History : ℚ

/-- The eleven field names of an ApplicantRecord, in the fixed column
order of the encoded vector (app.py lines 160-172). -/
def applicantFields : List String :=
  ["Gender", "Married", "Dependents", "Education", "Self_Employed",
   "ApplicantIncome", "CoapplicantIncome", "LoanAmount",
   "Loan_Amount_Term", "Credit_History", "Property_Area"]

/-- Modelled from the spec: a fitted categorical encoder (a library object,
not itself code under src/), represented by its known-classes vocabulary;
per the spec it `maps the raw category string to the learned integer code`
and fails outside its vocabulary.  The learned code of a class is its
position in the stored (sorted) classes array. -/
structure LabelEnc where
  classes : List String
deriving DecidableEq

/-- The encoder transform: the learned integer code of a known class,
failure (`none`, the InvalidCategory marker) on an unknown raw value. -/
def encTransform (e : LabelEnc) (v : String) : Option ℕ :=
  if v ∈ e.classes then some (e.classes.indexOf v) else none

/-- A fitted feature scaler: transforms the four continuous columns
(ApplicantIncome, CoapplicantIncome, LoanAmount, Loan_Amount_Term),
taken and returned in that order.  Kept abstract: only its input/output
wiring in `preprocess_input` matters here. -/
structure Scaler where
  transform : ℚ → ℚ → ℚ → ℚ → ℚ × ℚ × ℚ × ℚ

/-- A trained classifier as used by `make_prediction` (app.py 188-196):
from an encoded row it produces a predicted label and a probability
vector, or `none` when the call raised (the caught-exception path). -/
def PredModel : Type := List ℚ → Option (ℕ × List ℚ)

/-- The resolved `components` record built by `extract_components`
(app.py lines 108-112): optional model, optional scaler, and a
field-name-keyed mapping of categorical encoders. -/
structure Components where
  model : Option PredModel
  scaler : Option Scaler
  label_encoders : List (String × LabelEnc)

/-- The initial components value (app.py lines 108-112). -/
def emptyComponents : Components := ⟨none, none, []⟩

/-- One element of a loaded pickle tuple, classified by its runtime type
as in app.py lines 116-144: a DecisionTreeClassifier, a StandardScaler,
a fitted LabelEncoder carrying its classes, or anything else (including
an encoder without a fitted classes attribute, which line 126 skips
exactly like an unrecognised object). -/
inductive BundleItem where
  | classifier (predict : PredModel)
  | scalerItem (s : Scaler)
  | encoderItem (classes : List String)
  | other

/-- A successfully unpickled artifact: either a tuple of items or a
single non-tuple object (app.py line 114 only inspects tuples). -/
inductive ModelData where
  | tuple (items : List BundleItem)
  | single (item : BundleItem)

/-- The encoder-identification chain of app.py lines 127-144: the first
vocabulary test that succeeds names the field; no test succeeding means
the encoder is ignored. -/
def classifyVocab (classes : List String) : Option String :=
  if "Male" ∈ classes then some "Gender"
  else if "Yes" ∈ classes then some "Married"
  else if "3+" ∈ classes then some "Dependents"
  else if "Graduate" ∈ classes then some "Education"
  else if "Urban" ∈ classes then some "Property_Area"
  else if "Y" ∈ classes then some "Loan_Status"
  else none

/-- Python dict assignment `d[k] = v`: replace the value at an existing
key, otherwise append the new binding. -/
def updateAssoc (l : List (String × LabelEnc)) (k : String) (v : LabelEnc) :
    List (String × LabelEnc) :=
  if l.any (fun p => p.1 = k) then
    l.map (fun p => if p.1 = k then (k, v) else p)
  else l ++ [(k, v)]

/-- Processing of one tuple element by the loop body of
`extract_components` (app.py lines 116-144). -/
def processItem (c : Components) (item : BundleItem) : Components :=
  match item with
  | .classifier f => { c with model := some f }
  | .scalerItem s => { c with scaler := some s }
  | .encoderItem classes =>
      match classifyVocab classes with
      | some field =>
          { c with label_encoders := updateAssoc c.label_encoders field ⟨classes⟩ }
      | none => c
  | .other => c

/-- `extract_components` (app.py lines 106-146): tuples are folded item
by item; any non-tuple value falls through to the initial record. -/
def extract_components : ModelData → Components
  | .tuple items => items.foldl processItem emptyComponents
  | .single _ => emptyComponents

/-- The manual Gender mapping of app.py line 152. -/
def gender_map : List (String × ℚ) := [("Male", 1), ("Female", 0)]

/-- The manual Married mapping of app.py line 153. -/
def married_map : List (String × ℚ) := [("Yes", 1), ("No", 0)]

/-- The manual Education mapping of app.py line 154. -/
def education_map : List (String × ℚ) := [("Graduate", 1), ("Not Graduate", 0)]

/-- The manual Self_Employed mapping of app.py line 155. -/
def self_employed_map : List (String × ℚ) := [("Yes", 1), ("No", 0)]

/-- The manual Dependents mapping of app.py line 156. -/
def dependents_map : List (String × ℚ) := [("0", 0), ("1", 1), ("2", 2), ("3+", 3)]

/-- The manual Property_Area mapping of app.py line 157. -/
def property_area_map : List (String × ℚ) := [("Urban", 2), ("Semiurban", 1), ("Rural", 0)]

/-- Python dict lookup `m[k]`: the stored value, or `none` for the
KeyError that the surrounding try/except turns into a `None` return. -/
def lookupMap (m : List (String × ℚ)) (k : String) : Option ℚ :=
  (m.find? (fun p => p.1 = k)).map (fun p => p.2)

/-- `preprocess_input` (app.py lines 148-186).  The six categorical
fields go through the manual maps unconditionally — the function never
reads `components.label_encoders` — and any KeyError makes the whole
call return `none`.  The numeric fields pass through; when a scaler is
present it replaces exactly the four continuous columns with its
transform of them, taken in the fixed order of line 179. -/
def preprocess_input (data : InputData) (components : Components) :
    Option (List ℚ) :=
  match lookupMap gender_map data.Gender,
        lookupMap married_map data.Married,
        lookupMap dependents_map data.Dependents,
        lookupMap education_map data.Education,
        lookupMap self_employed_map data.Self_Employed,
        lookupMap property_area_map data.Property_Area with
  | some g, some m, some dep, some e, some se, some pa =>
      match components.scaler with
      | none =>
          some [g, m, dep, e, se, data.ApplicantIncome,
                data.CoapplicantIncome, data.LoanAmount,
                data.Loan_Amount_Term, data.Credit_History, pa]
      | some s =>
          match s.transform data.ApplicantIncome data.CoapplicantIncome
                  data.LoanAmount data.Loan_Amount_Term with
          | (a, c, l, t) =>
              some [g, m, dep, e, se, a, c, l, t, data.Credit_History, pa]
  | _, _, _, _, _, _ => none

/-- The demo-mode decision of app.py lines 354-362, with the
left-to-right short-circuit conjunction of Python made explicit: the division
`loan_amount / loan_term` is only reached once `credit_history == 1`
and `applicant_income > 2500` hold, and raises ZeroDivisionError
(embedded as `Except.error`) when `loan_term == 0`; the second division
is then safe since `applicant_income > 2500`. -/
def demoDecision (credit_history applicant_income loan_amount loan_term : ℚ) :
    Except Unit (Bool × ℚ) :=
  if credit_history = 1 then
    if applicant_income > 2500 then
      if loan_term = 0 then .error ()
      else if (loan_amount / loan_term) / applicant_income < 1 / 2 then
        .ok (true, 82 / 100)
      else .ok (false, 76 / 100)
    else .ok (false, 76 / 100)
  else .ok (false, 76 / 100)

/-- Origin tag of a decision: the real model, or a heuristic fallback. -/
inductive Source where
  | model
  | fallback
deriving DecidableEq

/-- The decision presented to the user: approval flag, confidence, and
which path produced it. -/
structure Decision where
  approved : Bool
  confidence : ℚ
  source : Source
deriving DecidableEq

/-- Outcome of one run of the prediction flow in `main`: an early return
with no decision shown, an unhandled exception, or a decision. -/
inductive RunResult where
  | noDecision
  | crash
  | decision (dec : Decision)
deriving DecidableEq

/-- `max(proba)` over the probability vector (app.py line 369). -/
def maxList (l : List ℚ) : ℚ := l.foldl max 0

/-- The decision flow of `main` (app.py lines 204-217 and 354-381) for
one request.  `model_data = none` is the load failure marker of
`load_model`; `main` then returns early (line 207) with no decision.
Otherwise components are extracted; a missing model selects demo mode
(line 214).  In the real-model branch, a preprocessing failure also
returns early (line 381); a model failure falls into the secondary
fallback of lines 373-378 with constants 0.75/0.70. -/
def runMain (model_data : Option ModelData) (d : InputData) : RunResult :=
  match model_data with
  | none => .noDecision
  | some md =>
      let comps := extract_components md
      match comps.model with
      | none =>
          match demoDecision d.Credit_History d.ApplicantIncome
                  d.LoanAmount d.Loan_Amount_Term with
          | .error _ => .crash
          | .ok (app, conf) => .decision ⟨app, conf, .fallback⟩
      | some m =>
          match preprocess_input d comps with
          | none => .noDecision
          | some vec =>
              match m vec with
              | some (pred, proba) =>
                  .decision ⟨pred == 1, maxList proba, .model⟩
              | none =>
                  if d.Credit_History = 1 ∧ d.ApplicantIncome > 2500 then
                    .decision ⟨true, 75 / 100, .fallback⟩
                  else
                    .decision ⟨false, 70 / 100, .fallback⟩

/-- The risk score of app.py lines 300-312: six sequential conditional
increments over the raw record. -/
def risk_score (d : InputData) : ℕ :=
  let s : ℕ := 0
  let s := if d.Credit_History = 0 then s + 40 else s
  let s := if d.ApplicantIncome < 3000 then s + 20 else s
  let s := if d.CoapplicantIncome = 0 then s + 10 else s
  let s := if d.LoanAmount > 300000 then s + 15 else s
  let s := if d.Education = "Not Graduate" then s + 10 else s
  let s := if d.Self_Employed = "Yes" then s + 5 else s
  s

/-- The risk level thresholds of app.py line 314. -/
def risk_level (s : ℕ) : String :=
  if s < 30 then "Low" else if s < 60 then "Medium" else "High"

/-! Spec-side reference definitions, used to compare the code with the
wording of the specification. -/

/-- The encoder-to-field precedence table, as worded in the spec (§4.2). -/
def precedenceTable : List (String × String) :=
  [("Male", "Gender"), ("Yes", "Married"), ("3+", "Dependents"),
   ("Graduate", "Education"), ("Urban", "Property_Area"), ("Y", "Loan_Status")]

/-- First matching row of the precedence table (spec wording: first match
wins, since vocabularies may overlap). -/
def tableFirstMatch (classes : List String) : Option String :=
  (precedenceTable.find? (fun p => decide (p.1 ∈ classes))).map (fun p => p.2)

/-- Spec-side manual Gender mapping (spec §4.3). -/
def specGender (v : String) : ℚ := if v = "Male" then 1 else 0

/-- Spec-side manual Married mapping (spec §4.3). -/
def specMarried (v : String) : ℚ := if v = "Yes" then 1 else 0

/-- Spec-side manual Dependents mapping (spec §4.3). -/
def specDependents (v : String) : ℚ :=
  if v = "0" then 0 else if v = "1" then 1 else if v = "2" then 2 else 3

/-- Spec-side manual Education mapping (spec §4.3). -/
def specEducation (v : String) : ℚ := if v = "Graduate" then 1 else 0

/-- Spec-side manual Self_Employed mapping (spec §4.3). -/
def specSelfEmployed (v : String) : ℚ := if v = "Yes" then 1 else 0

/-- Spec-side manual Property_Area mapping (spec §4.3). -/
def specPropertyArea (v : String) : ℚ :=
  if v = "Urban" then 2 else if v = "Semiurban" then 1 else 0

/-- Agreement of a Gender encoder with the manual gender map on the
domain of the map (the spec consistency condition, restricted to the
Gender field). -/
def genderAgrees (e : LabelEnc) : Prop :=
  encTransform e "Male" = some 1 ∧ encTransform e "Female" = some 0

/-- Number of capabilities recorded in a components value: a model, a
scaler, and one capability per registered encoder. -/
def capCount (c : Components) : ℕ :=
  (if c.model.isSome then 1 else 0) + (if c.scaler.isSome then 1 else 0) +
    c.label_encoders.length

/-! Concrete values used by witnesses and counterexamples. -/

/-- A well-formed applicant record (the end-to-end scenario of spec §8). -/
def sampleInput : InputData :=
  ⟨"Male", "Yes", "0", "Graduate", "No", "Urban", 5000, 0, 100000, 360, 1⟩

/-- A record matching the worked example of claim C7. -/
def sample7 : InputData :=
  ⟨"Male", "Yes", "3+", "Graduate", "No", "Urban", 5000, 0, 100000, 360, 1⟩

/-- A classifier whose prediction call always fails (the caught-exception
path of make_prediction). -/
def failModel : PredModel := fun _ => none

/-- A loaded tuple bundle holding only the failing classifier. -/
def mdFail : ModelData := .tuple [.classifier failModel]

/-- A Gender encoder fitted on the sorted classes Female, Male, whose
learned codes agree with the manual map (Female 0, Male 1). -/
def encGM : LabelEnc := ⟨["Female", "Male"]⟩

/-- Components holding the agreeing Gender encoder and nothing else. -/
def compsGM : Components := ⟨none, none, [("Gender", encGM)]⟩

/-- A degenerate Gender encoder fitted on the single class Male, whose
learned code for Male is 0, disagreeing with the manual map. -/
def encM0 : LabelEnc := ⟨["Male"]⟩

/-- Components holding only the disagreeing Gender encoder. -/
def compsM0 : Components := ⟨none, none, [("Gender", encM0)]⟩

/-! Theorems settling the claims. -/

/-- C10: for every non-tuple loaded bundle value, extract_components
returns the empty components record (no model, no scaler, no encoders),
so any non-tuple artifact forces demo/fallback mode. -/
theorem c10_nontuple_forces_demo (item : BundleItem) :
    extract_components (.single item) = emptyComponents ∧
    (extract_components (.single item)).model = none ∧
    (extract_components (.single item)).scaler = none ∧
    (extract_components (.single item)).label_encoders = [] :=
  ⟨rfl, rfl, rfl, rfl⟩

/-- C2: the fallback (demo) decision of the code violates the claimed
guard.  At credit_history 1, applicant_income 3000, loan_term 0 the code
reaches the division and raises ZeroDivisionError (the error value
here), and at applicant_income 0 it returns confidence 0.76, not the
claimed 0.70. -/
theorem c2_fallback_guard_violated :
    demoDecision 1 3000 100000 0 = .error () ∧
    demoDecision 1 0 100000 360 = .ok (false, 76 / 100) ∧
    (76 / 100 : ℚ) ≠ 70 / 100 := by
  refine ⟨rfl, rfl, by norm_num⟩

/-- C5: the encoder-identification chain of extract_components equals
first-match lookup in the spec precedence table (Male to Gender, Yes to
Married, 3+ to Dependents, Graduate to Education, Urban to
Property_Area, Y to Loan_Status), the first matching row winning even
when the vocabulary also matches later rows; and a classified encoder
element is registered in label_encoders under exactly that field. -/
theorem c5_encoder_precedence (classes : List String) :
    classifyVocab classes = tableFirstMatch classes ∧
    (extract_components (.tuple [.encoderItem classes])).label_encoders =
      (match classifyVocab classes with
       | some f => [(f, ⟨classes⟩)]
       | none => []) := by
  constructor
  · unfold classifyVocab tableFirstMatch precedenceTable
    by_cases h1 : "Male" ∈ classes <;> by_cases h2 : "Yes" ∈ classes <;>
      by_cases h3 : "3+" ∈ classes <;> by_cases h4 : "Graduate" ∈ classes <;>
      by_cases h5 : "Urban" ∈ classes <;> by_cases h6 : "Y" ∈ classes <;>
      simp [List.find?, h1, h2, h3, h4, h5, h6]
  · cases h : classifyVocab classes <;>
      simp [extract_components, processItem, h, updateAssoc, emptyComponents]

/-- The risk score as the sum of the six independent penalties. -/
lemma risk_score_eq (d : InputData) :
    risk_score d =
      (if d.Credit_History = 0 then 40 else 0) +
      (if d.ApplicantIncome < 3000 then 20 else 0) +
      (if d.CoapplicantIncome = 0 then 10 else 0) +
      (if d.LoanAmount > 300000 then 15 else 0) +
      (if d.Education = "Not Graduate" then 10 else 0) +
      (if d.Self_Employed = "Yes" then 5 else 0) := by
  unfold risk_score
  split_ifs <;> rfl

/-- A conditional penalty is monotone under implication of conditions. -/
lemma ite_penalty_mono {p q : Prop} [Decidable p] [Decidable q] (a : ℕ)
    (h : p → q) : (if p then a else 0) ≤ (if q then a else 0) := by
  split_ifs with hp hq
  · exact le_refl a
  · exact absurd (h hp) hq
  · exact Nat.zero_le a
  · exact le_refl 0

/-- C9: the risk score is the sum of exactly the applicable penalties,
is bounded by 100, maps through the Low/Medium/High thresholds, and is
monotone non-decreasing in each penalty condition. -/
theorem c9_risk_scorer :
    (∀ d, risk_score d =
      (if d.Credit_History = 0 then 40 else 0) +
      (if d.ApplicantIncome < 3000 then 20 else 0) +
      (if d.CoapplicantIncome = 0 then 10 else 0) +
      (if d.LoanAmount > 300000 then 15 else 0) +
      (if d.Education = "Not Graduate" then 10 else 0) +
      (if d.Self_Employed = "Yes" then 5 else 0)) ∧
    (∀ d, risk_score d ≤ 100) ∧
    (∀ d, (risk_score d < 30 → risk_level (risk_score d) = "Low") ∧
      (30 ≤ risk_score d → risk_score d < 60 →
        risk_level (risk_score d) = "Medium") ∧
      (60 ≤ risk_score d → risk_level (risk_score d) = "High")) ∧
    (∀ d d' : InputData,
      (d.Credit_History = 0 → d'.Credit_History = 0) →
      (d.ApplicantIncome < 3000 → d'.ApplicantIncome < 3000) →
      (d.CoapplicantIncome = 0 → d'.CoapplicantIncome = 0) →
      (d.LoanAmount > 300000 → d'.LoanAmount > 300000) →
      (d.Education = "Not Graduate" → d'.Education = "Not Graduate") →
      (d.Self_Employed = "Yes" → d'.Self_Employed = "Yes") →
      risk_score d ≤ risk_score d') := by
  refine ⟨risk_score_eq, ?_, ?_, ?_⟩
  · intro d
    rw [risk_score_eq]
    split_ifs <;> omega
  · intro d
    refine ⟨fun h => ?_, fun h1 h2 => ?_, fun h => ?_⟩
    · simp [risk_level, h]
    · simp [risk_level, h2, Nat.not_lt.mpr h1]
    · simp [risk_level,
        Nat.not_lt.mpr (le_trans (show (30 : ℕ) ≤ 60 by norm_num) h),
        Nat.not_lt.mpr h]
  · intro d d' h1 h2 h3 h4 h5 h6
    rw [risk_score_eq, risk_score_eq]
    exact add_le_add (add_le_add (add_le_add (add_le_add (add_le_add
      (ite_penalty_mono 40 h1) (ite_penalty_mono 20 h2))
      (ite_penalty_mono 10 h3)) (ite_penalty_mono 15 h4))
      (ite_penalty_mono 10 h5)) (ite_penalty_mono 5 h6)

/-- A maximally risky applicant record: every penalty applies. -/
def riskyInput : InputData :=
  ⟨"Male", "Yes", "0", "Not Graduate", "Yes", "Urban", 1000, 0, 400000, 360, 0⟩

/-- Witness for C9 at concrete records: the risky record scores at most
100 and at level High, and dominates the sample record pointwise in the
penalty conditions, hence in the score. -/
theorem c9_risk_scorer_witness :
    risk_score riskyInput ≤ 100 ∧
    risk_level (risk_score riskyInput) = "High" ∧
    risk_score sampleInput ≤ risk_score riskyInput :=
  ⟨c9_risk_scorer.2.1 riskyInput,
   (c9_risk_scorer.2.2.1 riskyInput).2.2 (by decide),
   c9_risk_scorer.2.2.2 sampleInput riskyInput (by decide) (by decide)
     (by decide) (by decide) (by decide) (by decide)⟩

/-- Gender lookup agrees with the spec-side map on its domain. -/
lemma lookup_gender {v : String} (h : v ∈ ["Male", "Female"]) :
    lookupMap gender_map v = some (specGender v) := by
  fin_cases h <;> rfl

/-- Married lookup agrees with the spec-side map on its domain. -/
lemma lookup_married {v : String} (h : v ∈ ["Yes", "No"]) :
    lookupMap married_map v = some (specMarried v) := by
  fin_cases h <;> rfl

/-- Dependents lookup agrees with the spec-side map on its domain. -/
lemma lookup_dependents {v : String} (h : v ∈ ["0", "1", "2", "3+"]) :
    lookupMap dependents_map v = some (specDependents v) := by
  fin_cases h <;> rfl

/-- Education lookup agrees with the spec-side map on its domain. -/
lemma lookup_education {v : String} (h : v ∈ ["Graduate", "Not Graduate"]) :
    lookupMap education_map v = some (specEducation v) := by
  fin_cases h <;> rfl

/-- Self_Employed lookup agrees with the spec-side map on its domain. -/
lemma lookup_self_employed {v : String} (h : v ∈ ["Yes", "No"]) :
    lookupMap self_employed_map v = some (specSelfEmployed v) := by
  fin_cases h <;> rfl

/-- Property_Area lookup agrees with the spec-side map on its domain. -/
lemma lookup_property_area {v : String}
    (h : v ∈ ["Urban", "Semiurban", "Rural"]) :
    lookupMap property_area_map v = some (specPropertyArea v) := by
  fin_cases h <;> rfl

/-- C7: for every valid applicant record and components with no encoders
and no scaler, preprocess_input yields the eleven columns in the fixed
order, the categoricals mapped exactly by the manual maps of the spec
and the numerics passed through unchanged. -/
theorem c7_manual_mapping (d : InputData) (comps : Components)
    (hsc : comps.scaler = none)
    (_henc : comps.label_encoders = [])
    (hg : d.Gender ∈ ["Male", "Female"])
    (hm : d.Married ∈ ["Yes", "No"])
    (hd : d.Dependents ∈ ["0", "1", "2", "3+"])
    (he : d.Education ∈ ["Graduate", "Not Graduate"])
    (hse : d.Self_Employed ∈ ["Yes", "No"])
    (hp : d.Property_Area ∈ ["Urban", "Semiurban", "Rural"]) :
    preprocess_input d comps =
      some [specGender d.Gender, specMarried d.Married,
            specDependents d.Dependents, specEducation d.Education,
            specSelfEmployed d.Self_Employed, d.ApplicantIncome,
            d.CoapplicantIncome, d.LoanAmount, d.Loan_Amount_Term,
            d.Credit_History, specPropertyArea d.Property_Area] := by
  unfold preprocess_input
  rw [lookup_gender hg, lookup_married hm, lookup_dependents hd,
    lookup_education he, lookup_self_employed hse,
    lookup_property_area hp, hsc]

/-- Witness for C7 at the C7 worked example: Male, Yes, 3+, Graduate,
No, Urban gives categorical codes 1, 1, 3, 1, 0, 2 with the numerics
untouched. -/
theorem c7_manual_mapping_witness :
    preprocess_input sample7 emptyComponents =
      some [1, 1, 3, 1, 0, 5000, 0, 100000, 360, 1, 2] :=
  (c7_manual_mapping sample7 emptyComponents rfl rfl (by decide) (by decide)
    (by decide) (by decide) (by decide) (by decide)).trans (by decide)

/-- C8: when a scaler is present, preprocess_input hands it exactly the
four continuous columns ApplicantIncome, CoapplicantIncome, LoanAmount,
Loan_Amount_Term in that order, and replaces exactly those four columns
of the output with the transform result, the seven other columns keeping
their categorical-resolution (and pass-through) values. -/
theorem c8_scaler_frame (d : InputData) (comps : Components) (s : Scaler)
    (g m dep e se pa : ℚ)
    (hsc : comps.scaler = some s)
    (hg : lookupMap gender_map d.Gender = some g)
    (hm : lookupMap married_map d.Married = some m)
    (hd : lookupMap dependents_map d.Dependents = some dep)
    (he : lookupMap education_map d.Education = some e)
    (hse : lookupMap self_employed_map d.Self_Employed = some se)
    (hp : lookupMap property_area_map d.Property_Area = some pa) :
    preprocess_input d comps =
      some [g, m, dep, e, se,
        (s.transform d.ApplicantIncome d.CoapplicantIncome d.LoanAmount
          d.Loan_Amount_Term).1,
        (s.transform d.ApplicantIncome d.CoapplicantIncome d.LoanAmount
          d.Loan_Amount_Term).2.1,
        (s.transform d.ApplicantIncome d.CoapplicantIncome d.LoanAmount
          d.Loan_Amount_Term).2.2.1,
        (s.transform d.ApplicantIncome d.CoapplicantIncome d.LoanAmount
          d.Loan_Amount_Term).2.2.2,
        d.Credit_History, pa] ∧
    preprocess_input d { comps with scaler := none } =
      some [g, m, dep, e, se, d.ApplicantIncome, d.CoapplicantIncome,
        d.LoanAmount, d.Loan_Amount_Term, d.Credit_History, pa] := by
  constructor
  · unfold preprocess_input
    rw [hg, hm, hd, he, hse, hp, hsc]
  · unfold preprocess_input
    rw [hg, hm, hd, he, hse, hp]

/-- A test scaler used by the C8 witness: it reverses the order of the
four continuous columns, making the replacement visible. -/
def revScaler : Scaler := ⟨fun a c l t => (t, l, c, a)⟩

/-- Components holding only the test scaler. -/
def compsRev : Components := ⟨none, some revScaler, []⟩

/-- Witness for C8 at a concrete record and scaler: exactly the four
continuous columns are replaced by the transform output (here their
reversal), all others are untouched. -/
theorem c8_scaler_frame_witness :
    preprocess_input sample7 compsRev =
      some [1, 1, 3, 1, 0, 360, 100000, 0, 5000, 1, 2] ∧
    preprocess_input sample7 { compsRev with scaler := none } =
      some [1, 1, 3, 1, 0, 5000, 0, 100000, 360, 1, 2] := by
  have h := c8_scaler_frame sample7 compsRev revScaler 1 1 3 1 0 2 rfl
    (by decide) (by decide) (by decide) (by decide) (by decide) (by decide)
  exact ⟨h.1.trans (by decide), h.2.trans (by decide)⟩

/-- A successful gender lookup pins the raw value and its manual code. -/
lemma gender_lookup_cases {v : String} {q : ℚ}
    (h : lookupMap gender_map v = some q) :
    (v = "Male" ∧ q = 1) ∨ (v = "Female" ∧ q = 0) := by
  by_cases h1 : v = "Male"
  · subst h1
    rw [show lookupMap gender_map "Male" = some 1 from rfl] at h
    injection h with h2
    exact Or.inl ⟨rfl, h2.symm⟩
  · by_cases h2 : v = "Female"
    · subst h2
      rw [show lookupMap gender_map "Female" = some 0 from rfl] at h
      injection h with h3
      exact Or.inr ⟨rfl, h3.symm⟩
    · exfalso
      have hn : lookupMap gender_map v = none := by
        simp [lookupMap, gender_map, List.find?, Ne.symm h1, Ne.symm h2]
      rw [hn] at h
      exact Option.noConfusion h

/-- A successful preprocess run starts with the manual gender code. -/
lemma preprocess_head {d : InputData} {c : Components} {row : List ℚ}
    (h : preprocess_input d c = some row) :
    ∃ g, lookupMap gender_map d.Gender = some g ∧ row.head? = some g := by
  unfold preprocess_input at h
  split at h
  · rename_i g m dep e2 se pa hg hm hd he2 hse hp
    refine ⟨g, hg, ?_⟩
    split at h
    · cases h; rfl
    · split at h
      cases h; rfl
  · exact Option.noConfusion h

/-- C1 counterexample: with a fitted Gender encoder present in
components whose learned code for Male is 0, preprocess_input still
produces the manual code 1 (it does not resolve through the encoder),
and a raw value outside the encoder vocabulary (Female) does not fail
with InvalidCategory but succeeds through the manual map. -/
theorem c1_counterexample :
    compsM0.label_encoders = [("Gender", encM0)] ∧
    encTransform encM0 "Male" = some 0 ∧
    preprocess_input sampleInput compsM0 =
      some [1, 1, 0, 1, 0, 5000, 0, 100000, 360, 1, 2] ∧
    (1 : ℚ) ≠ ((0 : ℕ) : ℚ) ∧
    encTransform encM0 "Female" = none ∧
    preprocess_input { sampleInput with Gender := "Female" } compsM0 =
      some [0, 1, 0, 1, 0, 5000, 0, 100000, 360, 1, 2] :=
  ⟨rfl, by decide, by decide, by norm_num, by decide, by decide⟩

/-- C1 (amended): preprocess_input never consults label_encoders — its
result depends on components only through the scaler — and whenever a
fitted Gender encoder agrees with the manual map on the domain of the
map, the Gender column of any successful encode equals the learned code
of the encoder, so both paths give identical results there. -/
theorem c1_encoders_unused :
    (∀ (d : InputData) (c c' : Components), c.scaler = c'.scaler →
      preprocess_input d c = preprocess_input d c') ∧
    (∀ (d : InputData) (c : Components) (e : LabelEnc) (row : List ℚ),
      genderAgrees e → preprocess_input d c = some row →
      ∃ n : ℕ, encTransform e d.Gender = some n ∧
        row.head? = some (n : ℚ)) := by
  constructor
  · intro d c c' hs
    unfold preprocess_input
    simp only [hs]
  · intro d c e row hag hrow
    obtain ⟨g, hg, hhead⟩ := preprocess_head hrow
    rcases gender_lookup_cases hg with ⟨hv, hq⟩ | ⟨hv, hq⟩
    · refine ⟨1, ?_, ?_⟩
      · rw [hv]; exact hag.1
      · rw [hhead, hq]; norm_num
    · refine ⟨0, ?_, ?_⟩
      · rw [hv]; exact hag.2
      · rw [hhead, hq]; norm_num

/-- Witness for C1 (amended): components with and without the agreeing
Gender encoder encode the sample record identically, and the Gender
column of the result equals the learned code of that encoder. -/
theorem c1_encoders_unused_witness :
    (emptyComponents.scaler = compsGM.scaler ∧
      preprocess_input sampleInput emptyComponents =
        preprocess_input sampleInput compsGM) ∧
    (genderAgrees encGM ∧
      preprocess_input sampleInput compsGM =
        some [1, 1, 0, 1, 0, 5000, 0, 100000, 360, 1, 2] ∧
      ∃ n : ℕ, encTransform encGM sampleInput.Gender = some n ∧
        ([1, 1, 0, 1, 0, 5000, 0, 100000, 360, 1, 2] : List ℚ).head? =
          some (n : ℚ)) := by
  have hag : genderAgrees encGM := ⟨by decide, by decide⟩
  have hrow : preprocess_input sampleInput compsGM =
      some [1, 1, 0, 1, 0, 5000, 0, 100000, 360, 1, 2] := by decide
  exact ⟨⟨rfl, c1_encoders_unused.1 sampleInput emptyComponents compsGM rfl⟩,
    hag, hrow,
    c1_encoders_unused.2 sampleInput compsGM encGM _ hag hrow⟩

/-- C3 counterexample: when the model call fails, the code does not use
the documented demo fallback formula.  On a record with credit_history 1,
income 3000, loan 100000 over 12 months, the ratio test of the
documented formula fails (the record should be rejected with confidence
0.76), yet the post-failure path approves it with confidence 0.75. -/
theorem c3_counterexample :
    runMain (some mdFail)
        ⟨"Male", "Yes", "0", "Graduate", "No", "Urban", 3000, 0, 100000, 12, 1⟩ =
      .decision ⟨true, 75 / 100, .fallback⟩ ∧
    ¬ ((100000 / 12 : ℚ) / 3000 < 1 / 2) ∧
    (75 / 100 : ℚ) ≠ 82 / 100 ∧ (75 / 100 : ℚ) ≠ 76 / 100 := by
  refine ⟨rfl, by norm_num, by norm_num, by norm_num⟩

/-- C3 (amended): whenever the model step fails (make_prediction yields
no prediction), the run produces a decision from the secondary fallback
of lines 373-378 — approved iff credit_history is 1 and
applicant_income exceeds 2500, confidence 0.75 when approved and 0.70
otherwise, with no ratio test — tagged source fallback, and no error is
propagated. -/
theorem c3_model_failure_fallback (d : InputData) (md : ModelData)
    (m : PredModel) (vec : List ℚ)
    (hm : (extract_components md).model = some m)
    (hp : preprocess_input d (extract_components md) = some vec)
    (hf : m vec = none) :
    runMain (some md) d =
      .decision ⟨decide (d.Credit_History = 1 ∧ d.ApplicantIncome > 2500),
        if d.Credit_History = 1 ∧ d.ApplicantIncome > 2500 then 75 / 100
        else 70 / 100,
        .fallback⟩ := by
  simp only [runMain, hm, hp, hf]
  split_ifs with h <;> simp [h]

/-- Witness for C3 (amended) at the failing classifier and the sample
record: the run ends in the 0.75-confidence fallback approval. -/
theorem c3_model_failure_fallback_witness :
    ((extract_components mdFail).model = some failModel ∧
      preprocess_input sampleInput (extract_components mdFail) =
        some [1, 1, 0, 1, 0, 5000, 0, 100000, 360, 1, 2] ∧
      failModel [1, 1, 0, 1, 0, 5000, 0, 100000, 360, 1, 2] = none) ∧
    runMain (some mdFail) sampleInput =
      .decision ⟨decide (sampleInput.Credit_History = 1 ∧
          sampleInput.ApplicantIncome > 2500),
        if sampleInput.Credit_History = 1 ∧ sampleInput.ApplicantIncome > 2500
        then 75 / 100 else 70 / 100,
        .fallback⟩ := by
  have h1 : (extract_components mdFail).model = some failModel := rfl
  have h2 : preprocess_input sampleInput (extract_components mdFail) =
      some [1, 1, 0, 1, 0, 5000, 0, 100000, 360, 1, 2] := by decide
  have h3 : failModel [1, 1, 0, 1, 0, 5000, 0, 100000, 360, 1, 2] = none := rfl
  exact ⟨⟨h1, h2, h3⟩,
    c3_model_failure_fallback sampleInput mdFail failModel _ h1 h2 h3⟩

/-- C4 counterexample: when load_model fails (returns the failure
marker), main returns early and the caller receives no decision at all,
rather than a fallback decision. -/
theorem c4_counterexample :
    runMain none sampleInput = .noDecision ∧
    ¬ ∃ dec, runMain none sampleInput = .decision dec := by
  refine ⟨rfl, ?_⟩
  rintro ⟨dec, h⟩
  exact RunResult.noConfusion h

/-- The demo decision cannot raise when the loan term is nonzero. -/
lemma demoDecision_ne_error (ch ai la lt : ℚ) (h : lt ≠ 0) (e : Unit) :
    demoDecision ch ai la lt ≠ .error e := by
  unfold demoDecision
  split_ifs with h1 h2 h3 <;> simp_all

/-- C4 (amended): a load failure makes main return early with no
decision; degraded fallback-only operation occurs instead when the
bundle loads but classification finds no model (components.model is
none), in which case the caller does receive a decision, tagged source
fallback, for every record with a nonzero loan term. -/
theorem c4_load_failure_no_decision :
    (∀ d : InputData, runMain none d = .noDecision) ∧
    (∀ (d : InputData) (md : ModelData),
      (extract_components md).model = none →
      d.Loan_Amount_Term ≠ 0 →
      ∃ dec, runMain (some md) d = .decision dec ∧ dec.source = .fallback) := by
  constructor
  · intro d; rfl
  · intro d md hm hlt
    cases hdd : demoDecision d.Credit_History d.ApplicantIncome
        d.LoanAmount d.Loan_Amount_Term with
    | error e =>
        exact absurd hdd
          (demoDecision_ne_error d.Credit_History d.ApplicantIncome
            d.LoanAmount d.Loan_Amount_Term hlt e)
    | ok p =>
        obtain ⟨app, conf⟩ := p
        exact ⟨⟨app, conf, .fallback⟩, by simp [runMain, hm, hdd], rfl⟩

/-- Witness for C4 (amended): an empty tuple bundle has no model, and
the sample record still receives a fallback-tagged decision, while a
load failure yields no decision. -/
theorem c4_load_failure_no_decision_witness :
    ((extract_components (ModelData.tuple [])).model = none ∧
      sampleInput.Loan_Amount_Term ≠ 0) ∧
    (∃ dec, runMain (some (ModelData.tuple [])) sampleInput =
        .decision dec ∧ dec.source = .fallback) ∧
    runMain none sampleInput = .noDecision :=
  ⟨⟨rfl, by decide⟩,
   c4_load_failure_no_decision.2 sampleInput (ModelData.tuple []) rfl
     (by decide),
   c4_load_failure_no_decision.1 sampleInput⟩

/-- C6 counterexample: a tuple holding one encoder fitted on the
vocabulary Y, N is classified under the key Loan_Status, which is not a
field of ApplicantRecord. -/
theorem c6_counterexample :
    (extract_components
        (.tuple [.encoderItem ["Y", "N"]])).label_encoders =
      [("Loan_Status", ⟨["Y", "N"]⟩)] ∧
    "Loan_Status" ∉ applicantFields :=
  ⟨rfl, by decide⟩

/-- Membership in a dict update comes from the old dict or is the new
binding. -/
lemma updateAssoc_mem {l : List (String × LabelEnc)} {k : String}
    {v : LabelEnc} {p : String × LabelEnc} (h : p ∈ updateAssoc l k v) :
    p ∈ l ∨ p = (k, v) := by
  unfold updateAssoc at h
  split_ifs at h with hany
  · rcases List.mem_map.mp h with ⟨q, hq, hmap⟩
    by_cases hk : q.1 = k
    · right
      rw [← hmap]
      simp [hk]
    · left
      rw [← hmap]
      simpa [hk] using hq
  · rcases List.mem_append.mp h with h | h
    · exact Or.inl h
    · exact Or.inr (List.mem_singleton.mp h)

/-- A field name produced by the encoder-identification chain is either
an ApplicantRecord field or the decision target Loan_Status. -/
lemma classifyVocab_field {classes : List String} {f : String}
    (h : classifyVocab classes = some f) :
    f ∈ applicantFields ∨ f = "Loan_Status" := by
  unfold classifyVocab at h
  split_ifs at h <;>
    first
      | exact Option.noConfusion h
      | (injection h with h2; subst h2; decide)

/-- The key invariant is preserved by folding the classification loop. -/
lemma foldl_keys (items : List BundleItem) (acc : Components)
    (hacc : ∀ p ∈ acc.label_encoders,
      p.1 ∈ applicantFields ∨ p.1 = "Loan_Status") :
    ∀ p ∈ (items.foldl processItem acc).label_encoders,
      p.1 ∈ applicantFields ∨ p.1 = "Loan_Status" := by
  induction items generalizing acc with
  | nil => exact hacc
  | cons it rest ih =>
      intro p hp
      refine ih (processItem acc it) ?_ p hp
      intro q hq
      cases it with
      | classifier f => exact hacc q hq
      | scalerItem s => exact hacc q hq
      | other => exact hacc q hq
      | encoderItem classes =>
          dsimp [processItem] at hq
          cases hcv : classifyVocab classes with
          | none =>
              rw [hcv] at hq
              exact hacc q hq
          | some fld =>
              rw [hcv] at hq
              rcases updateAssoc_mem hq with h | h
              · exact hacc q h
              · rw [h]
                exact classifyVocab_field hcv

/-- C6 (amended): every key registered in label_encoders is either an
ApplicantRecord field name or the decision-target key Loan_Status (the
code also registers the target encoder), and classification gives a
single bundle element at most one capability. -/
theorem c6_key_invariant :
    (∀ md : ModelData, ∀ p ∈ (extract_components md).label_encoders,
      p.1 ∈ applicantFields ∨ p.1 = "Loan_Status") ∧
    (∀ item : BundleItem,
      capCount (extract_components (.tuple [item])) ≤ 1) := by
  constructor
  · intro md
    cases md with
    | single item => intro p hp; cases hp
    | tuple items =>
        exact foldl_keys items emptyComponents (by intro p hp; cases hp)
  · intro item
    cases item with
    | classifier f =>
        simp [extract_components, processItem, emptyComponents, capCount]
    | scalerItem s =>
        simp [extract_components, processItem, emptyComponents, capCount]
    | other =>
        simp [extract_components, processItem, emptyComponents, capCount]
    | encoderItem classes =>
        cases hcv : classifyVocab classes <;>
          simp [extract_components, processItem, emptyComponents, capCount,
            hcv, updateAssoc]

/-- Witness for C6 (amended) at a concrete bundle: the Gender key
registered for an encoder fitted on Male is an ApplicantRecord field,
and the element received exactly one capability. -/
theorem c6_key_invariant_witness :
    (("Gender", (⟨["Male"]⟩ : LabelEnc)) ∈
      (extract_components
        (ModelData.tuple [BundleItem.encoderItem ["Male"]])).label_encoders) ∧
    ("Gender" ∈ applicantFields ∨ "Gender" = "Loan_Status") ∧
    capCount (extract_components
      (ModelData.tuple [BundleItem.encoderItem ["Male"]])) ≤ 1 := by
  have hmem : ("Gender", (⟨["Male"]⟩ : LabelEnc)) ∈
      (extract_components
        (ModelData.tuple [BundleItem.encoderItem ["Male"]])).label_encoders :=
    by decide
  exact ⟨hmem,
    c6_key_invariant.1 (ModelData.tuple [BundleItem.encoderItem ["Male"]])
      ("Gender", (⟨["Male"]⟩ : LabelEnc)) hmem,
    c6_key_invariant.2 (BundleItem.encoderItem ["Male"])⟩

end LoanApp
